import Mathlib

/-!
Verification of the task-scheduler core of the MAC automation suite
(`scheduler.py`), against its natural-language specification.

The Python class `TaskScheduler` is embedded shallowly: its mutable fields
become a Lean structure, each method becomes a pure function from the old
state (plus the outcomes of its external collaborators, passed as explicit
parameters) to the new state, and side effects on the outside world (file
writes, schedule-registry mutation, SMTP sends) are reified as values
returned alongside the state.
-/

namespace MacScheduler

/-- One element of `TaskScheduler.task_history`: the dict built by
`log_task_execution` (`scheduler.py` lines 67-72) with keys
`timestamp`, `task`, `status`, `details`. The timestamp is kept as the
ISO-format string the code stores. -/
structure LogEntry where
  timestamp : String
  task : String
  status : String
  details : String
deriving DecidableEq, Repr

/-- The mutable state of the Python `TaskScheduler` object that the
verified operations touch: `self.task_history` and `self.running`. -/
structure TaskScheduler where
  task_history : List LogEntry
  running : Bool
deriving DecidableEq, Repr

/-- The truncation step of `log_task_execution` (lines 76-77):
`if len(self.task_history) > 100: self.task_history = self.task_history[-100:]`.
Python `h[-100:]` keeps the last 100 elements, i.e. drops `len - 100`
from the front. -/
def truncate100 (h : List LogEntry) : List LogEntry :=
  if h.length > 100 then h.drop (h.length - 100) else h

/-- `log_task_execution` (lines 65-79): build the entry dict, append it to
`task_history`, then truncate to the last 100 entries. -/
def log_task_execution (s : TaskScheduler) (timestamp task_name status details : String) :
    TaskScheduler :=
  let log_entry : LogEntry :=
    { timestamp := timestamp, task := task_name, status := status, details := details }
  { s with task_history := truncate100 (s.task_history ++ [log_entry]) }

/-- A sequence of `log_task_execution` calls, one per given entry, in order.
This is the ledger-facing trace of any run of jobs. -/
def recordAll (s : TaskScheduler) (es : List LogEntry) : TaskScheduler :=
  es.foldl (fun st e => log_task_execution st e.timestamp e.task e.status e.details) s

/-- The scheduler state as constructed by `__init__` (lines 30-33):
empty history, not yet running. -/
def freshScheduler : TaskScheduler :=
  { task_history := [], running := false }

/-- One iteration of the `while` loop body in `run_scheduler`
(lines 316-323): `schedule.run_pending()` makes the due jobs record some
entries (abstracted as the entry list they append), then the periodic
save check runs:
`if len(self.task_history) % 50 == 0 and len(self.task_history) > 0:
self.save_task_history()`. The Bool is whether that flush fired. -/
def loopIterFlush (s : TaskScheduler) (entries : List LogEntry) : TaskScheduler × Bool :=
  let s2 := recordAll s entries
  (s2, decide (s2.task_history.length % 50 = 0 ∧ 0 < s2.task_history.length))

/-- The per-iteration trace of the scheduler loop over a script giving the
entries recorded during each iteration's `run_pending()`: for each
iteration, the history length after recording and whether the periodic
flush fired. -/
def runLoopTrace (s : TaskScheduler) : List (List LogEntry) → List (Nat × Bool)
  | [] => []
  | entries :: rest =>
    let p := loopIterFlush s entries
    (p.1.task_history.length, p.2) :: runLoopTrace p.1 rest

/-- Total number of periodic flushes over a whole run of the loop. -/
def flushTotal (s : TaskScheduler) (script : List (List LogEntry)) : Nat :=
  (runLoopTrace s script).countP (fun p => p.2)

/-- A concrete history entry used for concrete runs. -/
def sampleEntry : LogEntry :=
  { timestamp := "2024-01-01T00:00:00", task := "system_monitoring",
    status := "SUCCESS", details := "" }

/-- The four jobs wired up by `setup_scheduled_tasks`. -/
inductive Job
  | web_scraping
  | system_monitoring
  | file_organization
  | email_report
deriving DecidableEq, Repr

/-- The concrete schedule rules produced by the registration calls in
`setup_scheduled_tasks`: `schedule.every().hour`, `schedule.every().day.at(t)`,
`schedule.every().week`, `schedule.every(n).minutes`. -/
inductive ScheduleRule
  | everyHour
  | everyDayAt (hhmm : String)
  | everyWeek
  | everyNMinutes (n : Nat)
deriving DecidableEq, Repr

/-- The `scheduler:` section of the YAML configuration, as read by
`setup_scheduled_tasks` via `self.scheduler_config.get(key, default)`:
`none` models an absent key. -/
structure SchedulerConfig where
  scraping_schedule : Option String
  monitoring_schedule : Option String
  organization_schedule : Option String
  email_schedule : Option String
deriving DecidableEq, Repr

/-- The web-scraping block of `setup_scheduled_tasks` (lines 263-269):
`self.scheduler_config.get('scraping_schedule', 'hourly')` followed by the
`if`/`elif` chain. A cadence string matching none of the branches registers
nothing. -/
def scrapingRegistrations (cfg : SchedulerConfig) : List (ScheduleRule × Job) :=
  let scraping_schedule := cfg.scraping_schedule.getD "hourly"
  if scraping_schedule = "hourly" then [(ScheduleRule.everyHour, Job.web_scraping)]
  else if scraping_schedule = "daily" then [(ScheduleRule.everyDayAt "09:00", Job.web_scraping)]
  else if scraping_schedule = "weekly" then [(ScheduleRule.everyWeek, Job.web_scraping)]
  else []

/-- The system-monitoring block of `setup_scheduled_tasks` (lines 272-278),
default cadence `every_30_minutes`. -/
def monitoringRegistrations (cfg : SchedulerConfig) : List (ScheduleRule × Job) :=
  let monitoring_schedule := cfg.monitoring_schedule.getD "every_30_minutes"
  if monitoring_schedule = "every_15_minutes" then
    [(ScheduleRule.everyNMinutes 15, Job.system_monitoring)]
  else if monitoring_schedule = "every_30_minutes" then
    [(ScheduleRule.everyNMinutes 30, Job.system_monitoring)]
  else if monitoring_schedule = "hourly" then
    [(ScheduleRule.everyHour, Job.system_monitoring)]
  else []

/-- The file-organization block of `setup_scheduled_tasks` (lines 281-285),
default cadence `daily` (at 02:00). -/
def organizationRegistrations (cfg : SchedulerConfig) : List (ScheduleRule × Job) :=
  let organization_schedule := cfg.organization_schedule.getD "daily"
  if organization_schedule = "daily" then
    [(ScheduleRule.everyDayAt "02:00", Job.file_organization)]
  else if organization_schedule = "weekly" then
    [(ScheduleRule.everyWeek, Job.file_organization)]
  else []

/-- The email-report block of `setup_scheduled_tasks` (lines 288-292),
default cadence `daily` (at 08:00). -/
def emailRegistrations (cfg : SchedulerConfig) : List (ScheduleRule × Job) :=
  let email_schedule := cfg.email_schedule.getD "daily"
  if email_schedule = "daily" then
    [(ScheduleRule.everyDayAt "08:00", Job.email_report)]
  else if email_schedule = "weekly" then
    [(ScheduleRule.everyWeek, Job.email_report)]
  else []

/-- `setup_scheduled_tasks` (lines 258-294): the four registration blocks
executed in order, accumulating rules in the global `schedule` registry. -/
def setup_scheduled_tasks (cfg : SchedulerConfig) : List (ScheduleRule × Job) :=
  scrapingRegistrations cfg ++ monitoringRegistrations cfg ++
    organizationRegistrations cfg ++ emailRegistrations cfg

/-- Discrete-time model of the `while` loop of `run_scheduler`
(lines 316-319): `shutdown_flag` is tested only at the top of each
iteration, and `time.sleep(self.check_interval)` then blocks for the full
interval (the installed signal handler does not raise, so the sleep is not
cut short). `shutdown_time` is the instant the flag is set; the result is
the instant at which the loop observes the flag and exits, or `none` if
the fuel runs out first. -/
def loopExitTime (check_interval shutdown_time : Nat) : Nat → Nat → Option Nat
  | 0, _ => none
  | fuel + 1, t =>
    if shutdown_time ≤ t then some t
    else loopExitTime check_interval shutdown_time fuel (t + check_interval)

/-- Per-reading system statistics returned by
`SystemMonitor.get_system_stats()`; `psutil` percentages are modelled as
rationals. -/
structure SystemStats where
  cpu_percent : ℚ
  memory_percent : ℚ
  disk_percent : ℚ
deriving DecidableEq, Repr

/-- `web_scraping_task` (lines 82-110). The external call
`scrape_site(...)` is abstracted as its outcome: `Except.error e` when it
raises (message `e`), `Except.ok none` when it returns a falsy value, and
`Except.ok (some headings)` when it returns data with the given
`headings` list. The optional notification email on success is external
I/O that never touches the ledger and is not modelled here. -/
def web_scraping_task (scrape_result : Except String (Option (List String)))
    (target_url timestamp : String) (s : TaskScheduler) : TaskScheduler :=
  let target_url := if target_url.startsWith "http" then target_url
    else "https://" ++ target_url
  match scrape_result with
  | Except.error e => log_task_execution s timestamp "web_scraping" "ERROR" e
  | Except.ok none =>
    log_task_execution s timestamp "web_scraping" "FAILED" "Failed to scrape website"
  | Except.ok (some headings) =>
    log_task_execution s timestamp "web_scraping" "SUCCESS"
      ("Scraped " ++ toString headings.length ++ " headings from " ++ target_url)

/-- `system_monitoring_task` (lines 113-143). The external call
`monitor.get_system_stats()` is abstracted as its outcome, like
`scrape_site` above. On stats, each exceeded threshold logs its derived
entry, then the SUCCESS entry is always logged. -/
def system_monitoring_task (stats_result : Except String (Option SystemStats))
    (timestamp : String) (s : TaskScheduler) : TaskScheduler :=
  match stats_result with
  | Except.error e => log_task_execution s timestamp "system_monitoring" "ERROR" e
  | Except.ok none =>
    log_task_execution s timestamp "system_monitoring" "FAILED" "Could not get system stats"
  | Except.ok (some stats) =>
    let s1 := if stats.cpu_percent > 80 then
        log_task_execution s timestamp "system_monitoring" "WARNING"
          ("High CPU usage: " ++ toString stats.cpu_percent ++ "%")
      else s
    let s2 := if stats.memory_percent > 85 then
        log_task_execution s1 timestamp "system_monitoring" "WARNING"
          ("High memory usage: " ++ toString stats.memory_percent ++ "%")
      else s1
    let s3 := if stats.disk_percent > 90 then
        log_task_execution s2 timestamp "system_monitoring" "CRITICAL"
          ("High disk usage: " ++ toString stats.disk_percent ++ "%")
      else s2
    log_task_execution s3 timestamp "system_monitoring" "SUCCESS"
      ("CPU: " ++ toString stats.cpu_percent ++ "%, Mem: " ++
        toString stats.memory_percent ++ "%, Disk: " ++ toString stats.disk_percent ++ "%")

/-- A due job inside one tick's `schedule.run_pending()`, carrying the
outcome of its external collaborator. -/
inductive TickJob
  | scraping (target_url : String) (result : Except String (Option (List String)))
  | monitoring (result : Except String (Option SystemStats))

/-- Dispatch of one due job to its wrapper. -/
def runDueJob (timestamp : String) (j : TickJob) (s : TaskScheduler) : TaskScheduler :=
  match j with
  | TickJob.scraping url r => web_scraping_task r url timestamp s
  | TickJob.monitoring r => system_monitoring_task r timestamp s

/-- `schedule.run_pending()` within one tick: the due jobs run
sequentially on the loop's thread, each transforming the state. -/
def run_pending (timestamp : String) (jobs : List TickJob) (s : TaskScheduler) : TaskScheduler :=
  jobs.foldl (fun st j => runDueJob timestamp j st) s

/-- Observable side effects of `run_scheduler` beyond the state:
`save_task_history()` writes the history file, `schedule.clear()` empties
the rule registry, and logger output. -/
inductive Effect
  | flushHistory
  | clearRules
  | logLine (line : String)
deriving DecidableEq, Repr

/-- The loop of `run_scheduler` with its periodic-flush effects
(lines 316-323): per iteration, record the tick's entries, then emit a
`flushHistory` effect when the periodic save condition fires. -/
def runLoopEffects (s : TaskScheduler) : List (List LogEntry) → TaskScheduler × List Effect
  | [] => (s, [])
  | entries :: rest =>
    let p := loopIterFlush s entries
    let q := runLoopEffects p.1 rest
    (q.1, (if p.2 then [Effect.flushHistory] else []) ++ q.2)

/-- How the `try` body of `run_scheduler` ends: the `while` condition
turning false (shutdown flag / running flag), a `KeyboardInterrupt`, or
any other escaping exception. -/
inductive LoopExit
  | normal
  | keyboard_interrupt
  | fatal (msg : String)
deriving DecidableEq, Repr

/-- `run_scheduler` (lines 306-338): the loop runs, the matching `except`
clause (if any) only logs, and the `finally` clause always runs
`self.save_task_history()` then `schedule.clear()` and logs the stop
line. -/
def run_scheduler (s0 : TaskScheduler) (script : List (List LogEntry)) (ex : LoopExit) :
    TaskScheduler × List Effect :=
  let p := runLoopEffects s0 script
  let exit_log : List Effect :=
    match ex with
    | LoopExit.normal => []
    | LoopExit.keyboard_interrupt => [Effect.logLine "Scheduler interrupted by user"]
    | LoopExit.fatal e => [Effect.logLine ("Unexpected error in scheduler: " ++ e)]
  (p.1, p.2 ++ (exit_log ++
    [Effect.flushHistory, Effect.clearRules, Effect.logLine "Task scheduler stopped"]))

/-- Line 240 of `generate_task_report`: `total_tasks = len(self.task_history)`. -/
def total_tasks (s : TaskScheduler) : Nat := s.task_history.length

/-- Line 241: `successful_tasks = len([t for t in self.task_history if
t['status'] == 'SUCCESS'])`. -/
def successful_tasks (s : TaskScheduler) : Nat :=
  (s.task_history.filter (fun t => t.status == "SUCCESS")).length

/-- Line 242: `failed_tasks = len([t for t in self.task_history if
t['status'] in ['FAILED', 'ERROR']])`. -/
def failed_tasks (s : TaskScheduler) : Nat :=
  (s.task_history.filter (fun t => t.status == "FAILED" || t.status == "ERROR")).length

/-- Line 251: the slice `self.task_history[-10:]` iterated by the
recent-history loop. -/
def recent_tasks (s : TaskScheduler) : List LogEntry :=
  s.task_history.drop (s.task_history.length - 10)

/-- Lines 252-254: the lines the report loop emits for one recent entry;
the details line is emitted only when `task['details']` is truthy
(non-empty). -/
def reportEntryLines (t : LogEntry) : String :=
  t.timestamp ++ " - " ++ t.task ++ ": " ++ t.status ++ "\n" ++
    (if t.details = "" then "" else "  Details: " ++ t.details ++ "\n")

/-- `generate_task_report` (lines 234-256): the report string assembled
from the header, the three counters and the recent-history listing. -/
def generate_task_report (s : TaskScheduler) : String :=
  "Automated System Report\n" ++ String.mk (List.replicate 30 '=') ++ "\n\n" ++
    "Total Tasks: " ++ toString (total_tasks s) ++ "\n" ++
    "Successful: " ++ toString (successful_tasks s) ++ "\n" ++
    "Failed: " ++ toString (failed_tasks s) ++ "\n\n" ++
    "Recent Task History:\n" ++ String.mk (List.replicate 20 '-') ++ "\n" ++
    String.join ((recent_tasks s).map reportEntryLines)

/-- `generate_task_report` viewed as a call on the scheduler object: it
returns the report and leaves the object state as it found it (the method
only reads `self.task_history`). -/
def generate_task_report_call (s : TaskScheduler) : String × TaskScheduler :=
  (generate_task_report s, s)

/-- The `email:` section of the YAML configuration as read by
`email_report_task`; `none` models an absent key. -/
structure EmailConfig where
  smtp_server : Option String
  smtp_port : Option Nat
  username : Option String
  password : Option String
  to_address : Option String
deriving DecidableEq, Repr

/-- Python truthiness of an optional config string, as tested by
`all([...])` on line 187: an absent key (`None`) and the empty string are
both falsy. -/
def truthyStr : Option String → Bool
  | none => false
  | some v => !(v == "")

/-- The arguments of one `send_email(...)` call (lines 196-204). -/
structure OutgoingEmail where
  to_addrs : List String
  subject : String
  body : String
  smtp_server : String
  smtp_port : Nat
  username : String
  password : String
deriving DecidableEq, Repr

/-- `email_report_task` (lines 179-210). The SMTP send is abstracted as
its outcome `send_result`; the returned list is the emails handed to
`send_email`. When any of `smtp_server`, `username`, `password` is
missing or empty, the task logs SKIPPED and returns before generating the
report or sending anything. In the send branch the `getD ""` defaults are
never exercised: the guard guarantees those keys are present. -/
def email_report_task (email_config : EmailConfig) (send_result : Except String Unit)
    (timestamp : String) (s : TaskScheduler) : TaskScheduler × List OutgoingEmail :=
  if truthyStr email_config.smtp_server && truthyStr email_config.username &&
      truthyStr email_config.password then
    let report_data := generate_task_report s
    match send_result with
    | Except.ok _ =>
      (log_task_execution s timestamp "email_report" "SUCCESS" "Report email sent",
        [{ to_addrs := [email_config.to_address.getD (email_config.username.getD "")],
           subject := "Automated System Report",
           body := report_data,
           smtp_server := email_config.smtp_server.getD "",
           smtp_port := email_config.smtp_port.getD 587,
           username := email_config.username.getD "",
           password := email_config.password.getD "" }])
    | Except.error e =>
      (log_task_execution s timestamp "email_report" "ERROR" e, [])
  else
    (log_task_execution s timestamp "email_report" "SKIPPED" "Email configuration incomplete", [])

/-- The derived threshold entries the spec expects one monitoring reading
to produce (each exceeded threshold contributes its entry, in the order
the code tests them). -/
def monitoringThresholdEntries (stats : SystemStats) (timestamp : String) : List LogEntry :=
  (if stats.cpu_percent > 80 then
    [{ timestamp := timestamp, task := "system_monitoring", status := "WARNING",
       details := "High CPU usage: " ++ toString stats.cpu_percent ++ "%" }]
   else []) ++
  (if stats.memory_percent > 85 then
    [{ timestamp := timestamp, task := "system_monitoring", status := "WARNING",
       details := "High memory usage: " ++ toString stats.memory_percent ++ "%" }]
   else []) ++
  (if stats.disk_percent > 90 then
    [{ timestamp := timestamp, task := "system_monitoring", status := "CRITICAL",
       details := "High disk usage: " ++ toString stats.disk_percent ++ "%" }]
   else [])

/-- The SUCCESS entry every monitoring reading produces. -/
def monitoringSuccessEntry (stats : SystemStats) (timestamp : String) : LogEntry :=
  { timestamp := timestamp, task := "system_monitoring", status := "SUCCESS",
    details := "CPU: " ++ toString stats.cpu_percent ++ "%, Mem: " ++
      toString stats.memory_percent ++ "%, Disk: " ++ toString stats.disk_percent ++ "%" }

end MacScheduler

namespace MacScheduler

theorem truncate100_eq_drop (h : List LogEntry) :
    truncate100 h = h.drop (h.length - 100) := by
  unfold truncate100
  split
  · rfl
  · have hl : h.length - 100 = 0 := by omega
    rw [hl, List.drop_zero]

theorem length_truncate100 (h : List LogEntry) :
    (truncate100 h).length = min h.length 100 := by
  rw [truncate100_eq_drop, List.length_drop]
  omega

theorem truncate100_of_le (h : List LogEntry) (hh : h.length ≤ 100) :
    truncate100 h = h := by
  rw [truncate100_eq_drop]
  have hl : h.length - 100 = 0 := by omega
  rw [hl, List.drop_zero]

theorem truncate100_append (l m : List LogEntry) :
    truncate100 (truncate100 l ++ m) = truncate100 (l ++ m) := by
  rw [truncate100_eq_drop, truncate100_eq_drop, truncate100_eq_drop,
    List.drop_append_eq_append_drop, List.drop_drop,
    List.drop_append_eq_append_drop]
  simp only [List.length_append, List.length_drop]
  congr 1 <;> congr 1 <;> omega

theorem log_task_execution_def (s : TaskScheduler) (t n st d : String) :
    log_task_execution s t n st d =
      { s with task_history :=
          truncate100 (s.task_history ++
            [{ timestamp := t, task := n, status := st, details := d }]) } := rfl

theorem running_log_task_execution (s : TaskScheduler) (t n st d : String) :
    (log_task_execution s t n st d).running = s.running := rfl

theorem recordAll_nil (s : TaskScheduler) : recordAll s [] = s := rfl

theorem recordAll_cons (s : TaskScheduler) (e : LogEntry) (es : List LogEntry) :
    recordAll s (e :: es) = recordAll (log_task_execution s e.timestamp e.task e.status e.details) es := rfl

theorem recordAll_eq (es : List LogEntry) :
    ∀ s : TaskScheduler, s.task_history.length ≤ 100 →
      recordAll s es = { s with task_history := truncate100 (s.task_history ++ es) } := by
  induction es with
  | nil =>
    intro s hs
    rw [recordAll_nil, List.append_nil, truncate100_of_le _ hs]
  | cons e es ih =>
    intro s hs
    rw [recordAll_cons, log_task_execution_def]
    have he : LogEntry.mk e.timestamp e.task e.status e.details = e := rfl
    rw [he]
    have hlen : (truncate100 (s.task_history ++ [e])).length ≤ 100 := by
      rw [length_truncate100]; omega
    rw [ih _ hlen]
    simp only [truncate100_append, List.append_assoc, List.singleton_append]

theorem recordAll_fresh (es : List LogEntry) :
    (recordAll freshScheduler es).task_history = truncate100 es := by
  rw [recordAll_eq es freshScheduler (by simp [freshScheduler])]
  simp [freshScheduler]

/-- C1: For every sequence of N calls to `log_task_execution`, after the
N-th call the history length equals `min N 100`, the stored entries are
exactly the last `min N 100` recorded entries in recording order (stated
both as a drop from the front and as the reversed 100-prefix of the
reverse), and `len(history) ≤ 100` holds after every append. -/
theorem C1_history_bounded_last100 (es : List LogEntry) :
    (recordAll freshScheduler es).task_history.length = min es.length 100 ∧
    (recordAll freshScheduler es).task_history = es.drop (es.length - 100) ∧
    (recordAll freshScheduler es).task_history = (es.reverse.take 100).reverse ∧
    ∀ k : Nat, (recordAll freshScheduler (es.take k)).task_history.length ≤ 100 := by
  refine ⟨?_, ?_, ?_, ?_⟩
  · rw [recordAll_fresh, length_truncate100]
  · rw [recordAll_fresh, truncate100_eq_drop]
  · rw [recordAll_fresh, truncate100_eq_drop, List.take_reverse, List.reverse_reverse]
  · intro k
    rw [recordAll_fresh, length_truncate100]
    omega

theorem runLoopTrace_invariant (script : List (List LogEntry)) :
    ∀ s : TaskScheduler, s.task_history.length ≤ 100 →
      ∀ p ∈ runLoopTrace s script,
        p.1 ≤ 100 ∧ (p.2 = true ↔ (p.1 % 50 = 0 ∧ 0 < p.1)) := by
  induction script with
  | nil => intro s _ p hp; simp [runLoopTrace] at hp
  | cons entries rest ih =>
    intro s hs p hp
    rw [runLoopTrace] at hp
    have hlen : (recordAll s entries).task_history.length ≤ 100 := by
      rw [recordAll_eq entries s hs, length_truncate100]
      omega
    rcases List.mem_cons.mp hp with hp | hp
    · subst hp
      refine ⟨hlen, ?_⟩
      simp [loopIterFlush]
    · exact ih (loopIterFlush s entries).1 hlen p hp

set_option maxRecDepth 40000 in
/-- C2 counterexample: the claim as stated fails on the code. In a run
whose single tick records 51 entries, the running total passes 50, so the
claim demands one flush at the 50th entry; the scheduler performs none,
because the flush check only looks at `len(task_history) % 50` at the end
of an iteration. In a run of two ticks of 60 entries each (total 120),
the claim demands flushes exactly at the 50th and 100th entries; the code
flushes exactly once, at the end of the second tick, when the running
total is 120 (not a multiple of 50) and the capped length is 100. -/
theorem C2_counterexample :
    runLoopTrace freshScheduler [List.replicate 51 sampleEntry] = [(51, false)] ∧
    flushTotal freshScheduler [List.replicate 51 sampleEntry] = 0 ∧
    runLoopTrace freshScheduler
        [List.replicate 60 sampleEntry, List.replicate 60 sampleEntry] =
      [(60, false), (100, true)] ∧
    flushTotal freshScheduler
        [List.replicate 60 sampleEntry, List.replicate 60 sampleEntry] = 1 := by
  refine ⟨by decide, by decide, by decide, by decide⟩

/-- C2 (amended): the periodic flush is keyed to the current (truncated)
history length, not to the running total of recorded entries: at the end
of any iteration of the loop, the ledger is flushed exactly when the
history length at that point is 50 or 100. In particular entries 1-49
never trigger a flush, a tick that jumps the length past 50 without
landing on it triggers none, and once 100 or more entries have ever been
recorded every iteration flushes. -/
theorem C2_flush_iff_len_50_or_100 (script : List (List LogEntry)) (p : Nat × Bool)
    (hp : p ∈ runLoopTrace freshScheduler script) :
    p.2 = true ↔ (p.1 = 50 ∨ p.1 = 100) := by
  have h := runLoopTrace_invariant script freshScheduler (by simp [freshScheduler]) p hp
  rcases h with ⟨hle, hiff⟩
  rw [hiff]
  omega

set_option maxRecDepth 40000 in
theorem C2_flush_iff_len_50_or_100_witness :
    ((50 : Nat), true).2 = true ↔ (((50 : Nat), true).1 = 50 ∨ ((50 : Nat), true).1 = 100) :=
  C2_flush_iff_len_50_or_100 [List.replicate 50 sampleEntry] ((50 : Nat), true) (by decide)

theorem scrapingRegistrations_snd (cfg : SchedulerConfig) :
    ∀ p ∈ scrapingRegistrations cfg, p.2 = Job.web_scraping := by
  intro p hp
  simp only [scrapingRegistrations] at hp
  split_ifs at hp <;> simp_all

theorem monitoringRegistrations_snd (cfg : SchedulerConfig) :
    ∀ p ∈ monitoringRegistrations cfg, p.2 = Job.system_monitoring := by
  intro p hp
  simp only [monitoringRegistrations] at hp
  split_ifs at hp <;> simp_all

theorem organizationRegistrations_snd (cfg : SchedulerConfig) :
    ∀ p ∈ organizationRegistrations cfg, p.2 = Job.file_organization := by
  intro p hp
  simp only [organizationRegistrations] at hp
  split_ifs at hp <;> simp_all

theorem emailRegistrations_snd (cfg : SchedulerConfig) :
    ∀ p ∈ emailRegistrations cfg, p.2 = Job.email_report := by
  intro p hp
  simp only [emailRegistrations] at hp
  split_ifs at hp <;> simp_all

theorem scrapingRegistrations_none (cfg : SchedulerConfig)
    (h : cfg.scraping_schedule = none) :
    scrapingRegistrations cfg = [(ScheduleRule.everyHour, Job.web_scraping)] := by
  simp [scrapingRegistrations, h]

theorem monitoringRegistrations_none (cfg : SchedulerConfig)
    (h : cfg.monitoring_schedule = none) :
    monitoringRegistrations cfg = [(ScheduleRule.everyNMinutes 30, Job.system_monitoring)] := by
  simp [monitoringRegistrations, h]

theorem organizationRegistrations_none (cfg : SchedulerConfig)
    (h : cfg.organization_schedule = none) :
    organizationRegistrations cfg = [(ScheduleRule.everyDayAt "02:00", Job.file_organization)] := by
  simp [organizationRegistrations, h]

theorem emailRegistrations_none (cfg : SchedulerConfig)
    (h : cfg.email_schedule = none) :
    emailRegistrations cfg = [(ScheduleRule.everyDayAt "08:00", Job.email_report)] := by
  simp [emailRegistrations, h]

theorem scrapingRegistrations_unrecognized (cfg : SchedulerConfig) (v : String)
    (h : cfg.scraping_schedule = some v)
    (h1 : v ≠ "hourly") (h2 : v ≠ "daily") (h3 : v ≠ "weekly") :
    scrapingRegistrations cfg = [] := by
  simp [scrapingRegistrations, h, h1, h2, h3]

theorem monitoringRegistrations_unrecognized (cfg : SchedulerConfig) (v : String)
    (h : cfg.monitoring_schedule = some v)
    (h1 : v ≠ "every_15_minutes") (h2 : v ≠ "every_30_minutes") (h3 : v ≠ "hourly") :
    monitoringRegistrations cfg = [] := by
  simp [monitoringRegistrations, h, h1, h2, h3]

theorem organizationRegistrations_unrecognized (cfg : SchedulerConfig) (v : String)
    (h : cfg.organization_schedule = some v)
    (h1 : v ≠ "daily") (h2 : v ≠ "weekly") :
    organizationRegistrations cfg = [] := by
  simp [organizationRegistrations, h, h1, h2]

theorem emailRegistrations_unrecognized (cfg : SchedulerConfig) (v : String)
    (h : cfg.email_schedule = some v)
    (h1 : v ≠ "daily") (h2 : v ≠ "weekly") :
    emailRegistrations cfg = [] := by
  simp [emailRegistrations, h, h1, h2]

theorem job_not_mem_setup (cfg : SchedulerConfig) (j : Job)
    (h1 : ∀ p ∈ scrapingRegistrations cfg, p.2 ≠ j)
    (h2 : ∀ p ∈ monitoringRegistrations cfg, p.2 ≠ j)
    (h3 : ∀ p ∈ organizationRegistrations cfg, p.2 ≠ j)
    (h4 : ∀ p ∈ emailRegistrations cfg, p.2 ≠ j) :
    j ∉ (setup_scheduled_tasks cfg).map Prod.snd := by
  intro hm
  simp only [setup_scheduled_tasks, List.map_append, List.mem_append] at hm
  rcases hm with ((hm | hm) | hm) | hm <;> obtain ⟨p, hp, hpe⟩ := List.mem_map.mp hm
  · exact h1 p hp hpe
  · exact h2 p hp hpe
  · exact h3 p hp hpe
  · exact h4 p hp hpe

/-- C3 counterexample: the claim as stated fails on the code. With every
cadence key present but set to the unrecognized string "fortnightly",
`setup_scheduled_tasks` registers nothing at all; in particular the
web-scraping job is not scheduled even when only its own cadence is
unrecognized, instead of falling back to its documented hourly default. -/
theorem C3_counterexample :
    setup_scheduled_tasks
        ⟨some "fortnightly", some "fortnightly", some "fortnightly", some "fortnightly"⟩ = [] ∧
    Job.web_scraping ∉
      (setup_scheduled_tasks ⟨some "fortnightly", none, none, none⟩).map Prod.snd := by
  refine ⟨by decide, by decide⟩

/-- C3 (amended): the documented per-job defaults apply only when the
cadence key is absent from the configuration: then the job is registered
with its default rule (monitoring every 30 minutes, scraping hourly,
organization daily at 02:00, email daily at 08:00) and no error is
raised. When the key is present but its value is not one of the job's
recognized names, no error is raised either, but nothing is registered
for that job: it is silently not scheduled. -/
theorem C3_unrecognized_cadence_drops_job (cfg : SchedulerConfig) :
    (cfg.scraping_schedule = none →
      (ScheduleRule.everyHour, Job.web_scraping) ∈ setup_scheduled_tasks cfg) ∧
    (∀ v, cfg.scraping_schedule = some v → v ≠ "hourly" → v ≠ "daily" → v ≠ "weekly" →
      Job.web_scraping ∉ (setup_scheduled_tasks cfg).map Prod.snd) ∧
    (cfg.monitoring_schedule = none →
      (ScheduleRule.everyNMinutes 30, Job.system_monitoring) ∈ setup_scheduled_tasks cfg) ∧
    (∀ v, cfg.monitoring_schedule = some v → v ≠ "every_15_minutes" →
        v ≠ "every_30_minutes" → v ≠ "hourly" →
      Job.system_monitoring ∉ (setup_scheduled_tasks cfg).map Prod.snd) ∧
    (cfg.organization_schedule = none →
      (ScheduleRule.everyDayAt "02:00", Job.file_organization) ∈ setup_scheduled_tasks cfg) ∧
    (∀ v, cfg.organization_schedule = some v → v ≠ "daily" → v ≠ "weekly" →
      Job.file_organization ∉ (setup_scheduled_tasks cfg).map Prod.snd) ∧
    (cfg.email_schedule = none →
      (ScheduleRule.everyDayAt "08:00", Job.email_report) ∈ setup_scheduled_tasks cfg) ∧
    (∀ v, cfg.email_schedule = some v → v ≠ "daily" → v ≠ "weekly" →
      Job.email_report ∉ (setup_scheduled_tasks cfg).map Prod.snd) := by
  refine ⟨?_, ?_, ?_, ?_, ?_, ?_, ?_, ?_⟩
  · intro h
    simp [setup_scheduled_tasks, scrapingRegistrations_none cfg h]
  · intro v hv h1 h2 h3
    apply job_not_mem_setup
    · intro p hp
      rw [scrapingRegistrations_unrecognized cfg v hv h1 h2 h3] at hp
      simp at hp
    · intro p hp
      have := monitoringRegistrations_snd cfg p hp
      simp [this]
    · intro p hp
      have := organizationRegistrations_snd cfg p hp
      simp [this]
    · intro p hp
      have := emailRegistrations_snd cfg p hp
      simp [this]
  · intro h
    simp [setup_scheduled_tasks, monitoringRegistrations_none cfg h]
  · intro v hv h1 h2 h3
    apply job_not_mem_setup
    · intro p hp
      have := scrapingRegistrations_snd cfg p hp
      simp [this]
    · intro p hp
      rw [monitoringRegistrations_unrecognized cfg v hv h1 h2 h3] at hp
      simp at hp
    · intro p hp
      have := organizationRegistrations_snd cfg p hp
      simp [this]
    · intro p hp
      have := emailRegistrations_snd cfg p hp
      simp [this]
  · intro h
    simp [setup_scheduled_tasks, organizationRegistrations_none cfg h]
  · intro v hv h1 h2
    apply job_not_mem_setup
    · intro p hp
      have := scrapingRegistrations_snd cfg p hp
      simp [this]
    · intro p hp
      have := monitoringRegistrations_snd cfg p hp
      simp [this]
    · intro p hp
      rw [organizationRegistrations_unrecognized cfg v hv h1 h2] at hp
      simp at hp
    · intro p hp
      have := emailRegistrations_snd cfg p hp
      simp [this]
  · intro h
    simp [setup_scheduled_tasks, emailRegistrations_none cfg h]
  · intro v hv h1 h2
    apply job_not_mem_setup
    · intro p hp
      have := scrapingRegistrations_snd cfg p hp
      simp [this]
    · intro p hp
      have := monitoringRegistrations_snd cfg p hp
      simp [this]
    · intro p hp
      have := organizationRegistrations_snd cfg p hp
      simp [this]
    · intro p hp
      rw [emailRegistrations_unrecognized cfg v hv h1 h2] at hp
      simp at hp

theorem C3_unrecognized_cadence_drops_job_witness :
    ((ScheduleRule.everyHour, Job.web_scraping) ∈
      setup_scheduled_tasks ⟨none, some "sometimes", none, some "rarely"⟩) ∧
    (Job.system_monitoring ∉
      (setup_scheduled_tasks ⟨none, some "sometimes", none, some "rarely"⟩).map Prod.snd) ∧
    ((ScheduleRule.everyDayAt "02:00", Job.file_organization) ∈
      setup_scheduled_tasks ⟨none, some "sometimes", none, some "rarely"⟩) ∧
    (Job.email_report ∉
      (setup_scheduled_tasks ⟨none, some "sometimes", none, some "rarely"⟩).map Prod.snd) := by
  have h := C3_unrecognized_cadence_drops_job ⟨none, some "sometimes", none, some "rarely"⟩
  refine ⟨h.1 rfl, ?_, h.2.2.2.2.1 rfl, ?_⟩
  · exact h.2.2.2.1 "sometimes" rfl (by decide) (by decide) (by decide)
  · exact h.2.2.2.2.2.2.2 "rarely" rfl (by decide) (by decide)

theorem loopExitTime_isSome (n T : Nat) :
    ∀ fuel t : Nat, T ≤ t + fuel * n → ∃ e, loopExitTime n T (fuel + 1) t = some e := by
  intro fuel
  induction fuel with
  | zero =>
    intro t ht
    refine ⟨t, ?_⟩
    rw [loopExitTime]
    simp at ht
    rw [if_pos ht]
  | succ fuel ih =>
    intro t ht
    rw [loopExitTime]
    by_cases hT : T ≤ t
    · exact ⟨t, by rw [if_pos hT]⟩
    · rw [if_neg hT]
      apply ih
      have : t + (fuel + 1) * n = t + n + fuel * n := by ring
      omega

theorem loopExitTime_bounds (n T : Nat) :
    ∀ (fuel t e : Nat), t < T + n → loopExitTime n T fuel t = some e →
      T ≤ e ∧ e < T + n := by
  intro fuel
  induction fuel with
  | zero => intro t e _ he; rw [loopExitTime] at he; exact absurd he (by simp)
  | succ fuel ih =>
    intro t e ht he
    rw [loopExitTime] at he
    by_cases hT : T ≤ t
    · rw [if_pos hT] at he
      have : t = e := by injection he
      omega
    · rw [if_neg hT] at he
      exact ih (t + n) e (by omega) he

/-- C4 counterexample: the claim as stated fails on the code. The flag is
only observed at the top of each loop iteration and
`time.sleep(check_interval)` blocks for the full interval, so a shutdown
signal arriving 1 time unit into the first sleep is observed only at the
next iteration boundary: with a check interval of 1000 the loop exits at
time 1000 (latency 999, the full remaining sleep), and with a check
interval of 10 it exits at time 10 (latency 9) — the latency scales with
the configured tick period instead of being bounded by a small constant
independent of it. -/
theorem C4_counterexample :
    loopExitTime 1000 1 2 0 = some 1000 ∧ loopExitTime 10 1 2 0 = some 10 := by
  refine ⟨by decide, by decide⟩

/-- C4 (amended): the inter-tick sleep is a blind fixed-duration block;
the shutdown flag is observed only at iteration boundaries. If the flag
is set at time T, the loop exits at the first iteration boundary at or
after T: shutdown latency is bounded by the full check interval (strictly
less than `check_interval` beyond T), not by a constant independent of
the tick period. -/
theorem C4_shutdown_latency_full_interval (n T : Nat) (hn : 0 < n) :
    ∃ e, loopExitTime n T (T + 1) 0 = some e ∧ T ≤ e ∧ e < T + n := by
  obtain ⟨e, he⟩ := loopExitTime_isSome n T T 0 (by
    have : T * n ≥ T * 1 := Nat.mul_le_mul_left T hn
    omega)
  obtain ⟨h1, h2⟩ := loopExitTime_bounds n T (T + 1) 0 e (by omega) he
  exact ⟨e, he, h1, h2⟩

theorem C4_shutdown_latency_full_interval_witness :
    ∃ e, loopExitTime 2 3 4 0 = some e ∧ 3 ≤ e ∧ e < 3 + 2 :=
  C4_shutdown_latency_full_interval 2 3 (by decide)

/-- C5: When a job's external call raises, the wrapper catches the
exception and records exactly one ERROR history entry whose detail is the
exception message (shown for both cited wrappers), and the tick is not
interrupted: running the due-job list with a failing job in the middle
still processes every remaining job, on the state left by the failing
job's wrapper. -/
theorem C5_job_error_caught_loop_continues (msg url timestamp : String)
    (s : TaskScheduler) (pre post : List TickJob) :
    (web_scraping_task (Except.error msg) url timestamp s).task_history =
      truncate100 (s.task_history ++
        [{ timestamp := timestamp, task := "web_scraping", status := "ERROR",
           details := msg }]) ∧
    (system_monitoring_task (Except.error msg) timestamp s).task_history =
      truncate100 (s.task_history ++
        [{ timestamp := timestamp, task := "system_monitoring", status := "ERROR",
           details := msg }]) ∧
    run_pending timestamp (pre ++ TickJob.monitoring (Except.error msg) :: post) s =
      run_pending timestamp post
        (system_monitoring_task (Except.error msg) timestamp (run_pending timestamp pre s)) ∧
    run_pending timestamp (pre ++ TickJob.scraping url (Except.error msg) :: post) s =
      run_pending timestamp post
        (web_scraping_task (Except.error msg) url timestamp (run_pending timestamp pre s)) := by
  refine ⟨rfl, rfl, ?_, ?_⟩
  · simp [run_pending, List.foldl_append, runDueJob]
  · simp [run_pending, List.foldl_append, runDueJob]

/-- C6: However the scheduler loop ends — the while-condition turning
false on shutdown, a keyboard interrupt, or any other escaping
exception — the `finally` teardown runs once: after the loop's own
effects, the effect trace contains exactly one history flush and exactly
one clearing of the registered rules. -/
theorem C6_teardown_flush_and_clear_once (s0 : TaskScheduler)
    (script : List (List LogEntry)) (ex : LoopExit) :
    ((run_scheduler s0 script ex).2).take ((runLoopEffects s0 script).2).length =
      (runLoopEffects s0 script).2 ∧
    (((run_scheduler s0 script ex).2).drop
        ((runLoopEffects s0 script).2).length).count Effect.flushHistory = 1 ∧
    (((run_scheduler s0 script ex).2).drop
        ((runLoopEffects s0 script).2).length).count Effect.clearRules = 1 := by
  cases ex <;>
    simp [run_scheduler, List.take_left, List.drop_left, List.count_cons, List.count_nil]

/-- C7: A monitoring invocation that obtains stats records a WARNING
entry when `cpu_percent > 80`, a WARNING entry when
`memory_percent > 85`, and a CRITICAL entry when `disk_percent > 90`,
each appended in addition to — not instead of — the invocation's SUCCESS
entry; when no threshold is exceeded, only the SUCCESS entry is
recorded. -/
theorem C7_monitoring_thresholds (stats : SystemStats) (timestamp : String)
    (s : TaskScheduler) :
    (system_monitoring_task (Except.ok (some stats)) timestamp s).task_history =
      truncate100 (s.task_history ++
        (monitoringThresholdEntries stats timestamp ++
          [monitoringSuccessEntry stats timestamp])) ∧
    (stats.cpu_percent ≤ 80 → stats.memory_percent ≤ 85 → stats.disk_percent ≤ 90 →
      (system_monitoring_task (Except.ok (some stats)) timestamp s).task_history =
        truncate100 (s.task_history ++ [monitoringSuccessEntry stats timestamp])) := by
  constructor
  · simp only [system_monitoring_task, monitoringThresholdEntries, monitoringSuccessEntry]
    split_ifs <;> simp [log_task_execution, truncate100_append, List.append_assoc]
  · intro h1 h2 h3
    simp only [system_monitoring_task, monitoringSuccessEntry]
    rw [if_neg (not_lt.mpr h1), if_neg (not_lt.mpr h2), if_neg (not_lt.mpr h3)]
    simp [log_task_execution]

theorem C7_monitoring_thresholds_witness :
    (system_monitoring_task (Except.ok (some ⟨50, 50, 50⟩)) "t" freshScheduler).task_history =
      truncate100 (freshScheduler.task_history ++ [monitoringSuccessEntry ⟨50, 50, 50⟩ "t"]) :=
  (C7_monitoring_thresholds ⟨50, 50, 50⟩ "t" freshScheduler).2
    (by norm_num) (by norm_num) (by norm_num)

/-- C8: `generate_task_report` summarizes the whole ledger: its total
count is the full history length, its success count is the number of
entries with status SUCCESS, its failed count is the number of entries
with status FAILED or ERROR, and the recent-history section lists exactly
the most recent 10 entries (all of them when fewer exist) in recording
order. -/
theorem C8_report_counts_and_window (s : TaskScheduler) :
    total_tasks s = s.task_history.length ∧
    successful_tasks s = s.task_history.countP (fun t => t.status == "SUCCESS") ∧
    failed_tasks s =
      s.task_history.countP (fun t => t.status == "FAILED" || t.status == "ERROR") ∧
    recent_tasks s = (s.task_history.reverse.take 10).reverse ∧
    (recent_tasks s).length = min 10 s.task_history.length := by
  refine ⟨rfl, ?_, ?_, ?_, ?_⟩
  · rw [successful_tasks, List.countP_eq_length_filter]
  · rw [failed_tasks, List.countP_eq_length_filter]
  · rw [recent_tasks, List.take_reverse, List.reverse_reverse]
  · rw [recent_tasks, List.length_drop]
    omega

/-- C9: calling `generate_task_report` twice with no intervening record
returns the identical report and leaves the state untouched both times:
the report is a deterministic function of the history alone. -/
theorem C9_summarize_idempotent (s : TaskScheduler) :
    generate_task_report_call ((generate_task_report_call s).2) =
      generate_task_report_call s := rfl

/-- C10: when any of `smtp_server`, `username`, `password` is missing
from the email configuration, `email_report_task` records exactly one
history entry, with status SKIPPED and detail "Email configuration
incomplete", hands no email to `send_email`, and leaves the rest of the
state (the `running` flag) unchanged. -/
theorem C10_email_skip_on_incomplete_config (email_config : EmailConfig)
    (send_result : Except String Unit) (timestamp : String) (s : TaskScheduler)
    (h : email_config.smtp_server = none ∨ email_config.username = none ∨
      email_config.password = none) :
    email_report_task email_config send_result timestamp s =
      ({ s with task_history := truncate100 (s.task_history ++
          [{ timestamp := timestamp, task := "email_report", status := "SKIPPED",
             details := "Email configuration incomplete" }]) }, []) ∧
    (email_report_task email_config send_result timestamp s).1.running = s.running := by
  rcases h with h | h | h <;>
    constructor <;>
      simp [email_report_task, truthyStr, h, log_task_execution]

theorem C10_email_skip_on_incomplete_config_witness :
    email_report_task ⟨none, none, none, none, none⟩ (Except.ok ()) "t" freshScheduler =
      ({ freshScheduler with task_history := truncate100 (freshScheduler.task_history ++
          [{ timestamp := "t", task := "email_report", status := "SKIPPED",
             details := "Email configuration incomplete" }]) }, []) ∧
    (email_report_task ⟨none, none, none, none, none⟩
        (Except.ok ()) "t" freshScheduler).1.running = freshScheduler.running :=
  C10_email_skip_on_incomplete_config ⟨none, none, none, none, none⟩ (Except.ok ())
    "t" freshScheduler (Or.inl rfl)

end MacScheduler
